import Mathlib

/-!
Verification development for the my-gantt allocation engine.

The definitions below are shallow embeddings of the calculation helpers of
the repository: the pool utilization math of public/utilization-worker.js
and src/ExportPanel.tsx, the per-week allocation lookup and work-day date
arithmetic of the ProjectForm revisions, the week-bucket generator and
chart-side utilization of src/GanttChart.tsx, and the bulk-update
distribution and cache of src/BulkUpdateForm.tsx.

Conventions:
- JavaScript numbers are modelled as rationals; the special values produced
  by division (NaN, Infinity) are modelled by the JSNum type.
- JavaScript dates are modelled as integer day numbers counted from
  1970-01-01 (a Thursday), so getDay() becomes (d + 4) % 7 with Sunday = 0
  and Saturday = 6, matching the JS convention.
- The pattern "x || def" on an optional numeric field follows JS
  truthiness: undefined and 0 both fall back to the default.
-/

/-- Lowercasing as toLowerCase() performs it on the ASCII status strings of
this data model, computed character by character. -/
def lowerStr (s : String) : String := String.mk (s.data.map Char.toLower)

/-- Models the JS idiom "x || d" on an optional numeric field: undefined and
0 are both falsy, so either yields the default. -/
def orD (o : Option ℚ) (d : ℚ) : ℚ :=
  match o with
  | none => d
  | some q => if q = 0 then d else q

/-- A JS number that may be the result of a division: either a finite
rational, an infinity, or NaN. -/
inductive JSNum where
  | num : ℚ → JSNum
  | posInf : JSNum
  | negInf : JSNum
  | nan : JSNum
deriving DecidableEq

/-- JS division a / b: finite quotient when b is nonzero, otherwise NaN for
0 / 0 and a signed infinity for nonzero / 0. -/
def jsDiv (a b : ℚ) : JSNum :=
  if b = 0 then
    if a = 0 then JSNum.nan
    else if 0 < a then JSNum.posInf
    else JSNum.negInf
  else JSNum.num (a / b)

/-- Multiplication of a JS division result by the positive constant 100,
as in "(x / y) * 100": infinities and NaN are preserved. -/
def jsMul100 : JSNum → JSNum
  | JSNum.num q => JSNum.num (q * 100)
  | JSNum.posInf => JSNum.posInf
  | JSNum.negInf => JSNum.negInf
  | JSNum.nan => JSNum.nan

/-- The rounding idiom Math.round(q * 10) / 10 used for one-decimal display
values. Lean's round, like Math.round, is the floor of x + 1/2. -/
def round10 (q : ℚ) : ℚ := (round (q * 10) : ℤ) / 10

/-- Math.round(x * 10) / 10 lifted to JSNum: Math.round maps NaN to NaN and
infinities to themselves. -/
def jsRound10 : JSNum → JSNum
  | JSNum.num q => JSNum.num (round10 q)
  | JSNum.posInf => JSNum.posInf
  | JSNum.negInf => JSNum.negInf
  | JSNum.nan => JSNum.nan

/-- PoolData as the utilization calculations read it: weeklyHours is always
present, the other hour fields are optional (and 0 behaves as absent under
the "|| default" idiom). -/
structure Pool where
  name : String
  weeklyHours : ℚ
  standardWeekHours : Option ℚ
  supportHours : Option ℚ
  meetingHours : Option ℚ
deriving DecidableEq

/-- The fields of a (pre-processed) project that
calculatePoolUtilizationFromProjects reads: status and weeklyAllocation. -/
structure WProject where
  status : Option String
  weeklyAllocation : Option ℚ
deriving DecidableEq

/-- Per-project allocation percent inside the utilization sum:
"proj.status?.toLowerCase() === 'complete' ? 0 : (proj.weeklyAllocation || 0)"
(utilization-worker.js line 54, ExportPanel.tsx line 1048). Note the strict
equality with the string "complete". -/
def wAllocationPercent (proj : WProject) : ℚ :=
  if proj.status.map lowerStr = some "complete" then 0
  else orD proj.weeklyAllocation 0

/-- reservedHours = (pool.supportHours || 0) + (pool.meetingHours || 0). -/
def reservedHours (pool : Pool) : ℚ :=
  orD pool.supportHours 0 + orD pool.meetingHours 0

/-- availableHours = pool.weeklyHours - reservedHours (before display
rounding). -/
def availableHoursRaw (pool : Pool) : ℚ :=
  pool.weeklyHours - reservedHours pool

/-- The reduce that computes totalAllocated:
sum + (allocationPercent / 100) * (pool.standardWeekHours || 40). -/
def wTotalAllocated (projs : List WProject) (pool : Pool) : ℚ :=
  projs.foldl
    (fun sum proj => sum + (wAllocationPercent proj / 100) * orD pool.standardWeekHours 40) 0

/-- The record returned by calculatePoolUtilizationFromProjects. -/
structure WUtil where
  totalAllocated : ℚ
  poolHours : ℚ
  availableHours : ℚ
  reservedHours : ℚ
  utilization : JSNum
  isOverAllocated : Bool
deriving DecidableEq

/-- calculatePoolUtilizationFromProjects (utilization-worker.js lines 52-72,
identically ExportPanel.tsx lines 1046-1069): totalAllocated from the
per-project percents, availableHours = weeklyHours - reservedHours, an
unguarded division for the utilization percent, and comparison on the
unrounded values for isOverAllocated. -/
def calculatePoolUtilizationFromProjects (projs : List WProject) (pool : Pool) : WUtil :=
  let totalAllocated := wTotalAllocated projs pool
  let reserved := reservedHours pool
  let available := pool.weeklyHours - reserved
  let utilization := jsMul100 (jsDiv totalAllocated available)
  { totalAllocated := round10 totalAllocated
    poolHours := pool.weeklyHours
    availableHours := round10 available
    reservedHours := round10 reserved
    utilization := jsRound10 utilization
    isOverAllocated := decide (totalAllocated > available) }

/-- Whether the character list p occurs at the head of s. -/
def listLead : List Char → List Char → Bool
  | [], _ => true
  | _ :: _, [] => false
  | a :: as, b :: bs => a == b && listLead as bs

/-- Whether the character list p occurs somewhere inside s. -/
def listIncl (p : List Char) : List Char → Bool
  | [] => p.isEmpty
  | c :: rest => listLead p (c :: rest) || listIncl p rest

/-- JS String.includes: whether p occurs as a contiguous substring of s. -/
def strIncludes (s p : String) : Bool := listIncl p.data s.data

/-- The active-project test shared by the worker pre-processing, the
GanttChart filter and BulkUpdateForm:
"!project.status?.toLowerCase().includes('complete')"; an absent status
short-circuits the optional chain to undefined, which is falsy, so the
project counts as active. -/
def isActiveStatus (status : Option String) : Bool :=
  match status with
  | some s => !(strIncludes (lowerStr s) "complete")
  | none => true

/-- The fields of ProjectFormData that getWeeklyAllocation reads. -/
structure FormProject where
  status : Option String
  weeklyAllocation : Option ℚ
  weeklyAllocations : Option (List (String × ℚ))
deriving DecidableEq

/-- getWeeklyAllocation of the ProjectForm revision (ErrorBoundary.tsx lines
224-230): if weeklyAllocations is present and has an entry for the week
key, return that override, else return weeklyAllocation || 0. The JS
function receives a Date and formats it to the ISO week key; the model
takes the formatted key directly. Note that the status field is never
consulted. -/
def getWeeklyAllocation (project : FormProject) (weekKey : String) : ℚ :=
  match project.weeklyAllocations with
  | some allocs =>
    match List.lookup weekKey allocs with
    | some v => v
    | none => orD project.weeklyAllocation 0
  | none => orD project.weeklyAllocation 0

/-- C1 counterexample: a project whose status is "Complete" (which
case-insensitively contains "complete") with weeklyAllocation 50 and no
overrides; getWeeklyAllocation returns 50, not 0, because it never looks at
the status. -/
theorem getWeeklyAllocation_complete_counterexample :
    getWeeklyAllocation
        { status := some "Complete", weeklyAllocation := some 50, weeklyAllocations := none }
        "2025-01-05" = 50
    ∧ getWeeklyAllocation
        { status := some "Complete", weeklyAllocation := some 50, weeklyAllocations := none }
        "2025-01-05" ≠ 0 := by
  simp only [getWeeklyAllocation, orD]
  norm_num

/-- C1 amended: the zeroing of completed projects does not live in
getWeeklyAllocation (which ignores status entirely; conjunct 2); instead,
the utilization summation zeroes a project exactly when its lowercased
status equals "complete" (conjunct 1), and the active-project filter drops
a project whose lowercased status contains "complete" (conjunct 3). -/
theorem weeklyAllocation_complete_zero_amended :
    (∀ proj : WProject, proj.status.map lowerStr = some "complete" → wAllocationPercent proj = 0)
    ∧ (∀ (st st' : Option String) (wa : Option ℚ) (was : Option (List (String × ℚ))) (k : String),
        getWeeklyAllocation { status := st, weeklyAllocation := wa, weeklyAllocations := was } k
          = getWeeklyAllocation { status := st', weeklyAllocation := wa, weeklyAllocations := was } k)
    ∧ (∀ s : String, strIncludes (lowerStr s) "complete" = true → isActiveStatus (some s) = false) := by
  refine ⟨?_, ?_, ?_⟩
  · intro proj h
    simp [wAllocationPercent, h]
  · intro st st' wa was k
    rfl
  · intro s h
    simp [isActiveStatus, h]

/-- Witness for the amended C1 theorem at a concrete completed project. -/
theorem weeklyAllocation_complete_zero_amended_witness :
    wAllocationPercent { status := some "Complete", weeklyAllocation := some 100 } = 0 :=
  weeklyAllocation_complete_zero_amended.1
    { status := some "Complete", weeklyAllocation := some 100 } (by decide)

/-- A pool whose availableHours comes out to exactly 0:
weeklyHours 10, supportHours 5, meetingHours 5. -/
def zeroAvailPool : Pool :=
  { name := "X", weeklyHours := 10, standardWeekHours := none
    supportHours := some 5, meetingHours := some 5 }

/-- C2 counterexample: with availableHours = 0 and no active projects the
division (totalAllocated / availableHours) * 100 is the JS expression
0 / 0, i.e. NaN, and the pool is not reported as over-allocated. -/
theorem unguarded_division_counterexample :
    availableHoursRaw zeroAvailPool ≤ 0
    ∧ (calculatePoolUtilizationFromProjects [] zeroAvailPool).utilization = JSNum.nan
    ∧ (calculatePoolUtilizationFromProjects [] zeroAvailPool).isOverAllocated = false := by
  refine ⟨?_, ?_, ?_⟩ <;>
    simp only [availableHoursRaw, reservedHours, orD, zeroAvailPool,
      calculatePoolUtilizationFromProjects, wTotalAllocated, List.foldl,
      jsDiv, jsMul100, jsRound10] <;>
    norm_num [decide_eq_false_iff_not]

/-- C2 amended: availableHours is weeklyHours minus the reserved support
and meeting hours, and isOverAllocated compares the unrounded totals, so
any pool with availableHours at most 0 and a positive allocation is
reported over-allocated; but the division is not guarded: the utilization
percent is NaN exactly when both totalAllocated and availableHours are 0
(in which case isOverAllocated is also false). -/
theorem poolUtilization_division_amended (projs : List WProject) (pool : Pool) :
    availableHoursRaw pool
        = pool.weeklyHours - (orD pool.supportHours 0 + orD pool.meetingHours 0)
    ∧ (calculatePoolUtilizationFromProjects projs pool).isOverAllocated
        = decide (wTotalAllocated projs pool > availableHoursRaw pool)
    ∧ (availableHoursRaw pool ≤ 0 → 0 < wTotalAllocated projs pool →
        (calculatePoolUtilizationFromProjects projs pool).isOverAllocated = true)
    ∧ ((calculatePoolUtilizationFromProjects projs pool).utilization = JSNum.nan
        ↔ wTotalAllocated projs pool = 0 ∧ availableHoursRaw pool = 0) := by
  refine ⟨rfl, rfl, ?_, ?_⟩
  · intro hA hT
    simp only [calculatePoolUtilizationFromProjects, decide_eq_true_eq]
    show wTotalAllocated projs pool > availableHoursRaw pool
    linarith
  · show jsRound10 (jsMul100 (jsDiv (wTotalAllocated projs pool) (availableHoursRaw pool)))
        = JSNum.nan ↔ _
    by_cases hA : availableHoursRaw pool = 0
    · by_cases hT : wTotalAllocated projs pool = 0
      · simp [jsDiv, jsMul100, jsRound10, hA, hT]
      · rcases lt_or_gt_of_ne hT with h | h
        · simp [jsDiv, jsMul100, jsRound10, hA, hT, not_lt_of_gt h]
        · simp [jsDiv, jsMul100, jsRound10, hA, hT, h]
    · simp [jsDiv, jsMul100, jsRound10, hA]

/-- Witness for the amended C2 theorem: a pool with negative available
hours and one 50 percent project is reported over-allocated. -/
theorem poolUtilization_division_amended_witness :
    (calculatePoolUtilizationFromProjects
        [{ status := some "Development", weeklyAllocation := some 50 }]
        { name := "X", weeklyHours := 10, standardWeekHours := none
          supportHours := some 5, meetingHours := some 6 }).isOverAllocated = true :=
  (poolUtilization_division_amended
      [{ status := some "Development", weeklyAllocation := some 50 }]
      { name := "X", weeklyHours := 10, standardWeekHours := none
        supportHours := some 5, meetingHours := some 6 }).2.2.1
    (by norm_num [availableHoursRaw, reservedHours, orD])
    (by norm_num [wTotalAllocated, wAllocationPercent, orD,
          show ¬ (lowerStr "Development" = "complete") from by decide])

/-- Calendar dates are integer day numbers counted from 1970-01-01, which
was a Thursday, so Date.getDay() becomes (d + 4) mod 7 with Sunday = 0 and
Saturday = 6. -/
def dayOfWeek (d : ℤ) : ℤ := (d + 4) % 7

/-- The weekend test of the work-day walks: getDay() is 0 (Sunday) or 6
(Saturday). -/
def isWeekend (d : ℤ) : Bool := dayOfWeek d == 0 || dayOfWeek d == 6

/-- One pass of the addWorkDays loop: advance one calendar day at a time
until a non-weekend day is reached and counted. At most two consecutive
days are weekend days (Saturday then Sunday), so the next counted weekday
is d + 1, d + 2 or d + 3. -/
def nextWorkDay (d : ℤ) : ℤ :=
  if isWeekend (d + 1) = false then d + 1
  else if isWeekend (d + 2) = false then d + 2
  else d + 3

/-- One pass of the subtractWorkDays loop, walking backward. -/
def prevWorkDay (d : ℤ) : ℤ :=
  if isWeekend (d - 1) = false then d - 1
  else if isWeekend (d - 2) = false then d - 2
  else d - 3

/-- addWorkDays' loop counted down to zero: each step lands on the next
counted weekday. -/
def addWorkDaysN (d : ℤ) : ℕ → ℤ
  | 0 => d
  | n + 1 => addWorkDaysN (nextWorkDay d) n

/-- addWorkDays of the ProjectForm revisions (ErrorBoundary.tsx lines
390-408): walk forward one day at a time, counting only weekdays, until
workDays weekdays have been counted; workDays at most 0 returns the start
date unchanged. -/
def addWorkDays (d : ℤ) (workDays : ℤ) : ℤ := addWorkDaysN d workDays.toNat

/-- subtractWorkDays' loop counted down to zero. -/
def subtractWorkDaysN (d : ℤ) : ℕ → ℤ
  | 0 => d
  | n + 1 => subtractWorkDaysN (prevWorkDay d) n

/-- subtractWorkDays of the ProjectForm revisions (ErrorBoundary.tsx lines
411-429): the backward walk. -/
def subtractWorkDays (d : ℤ) (workDays : ℤ) : ℤ := subtractWorkDaysN d workDays.toNat

/-- countWorkDays (ErrorBoundary.tsx lines 432-447): the inclusive loop
from startDate to endDate counting days whose getDay() is 1 through 5; the
early return 0 for startDate > endDate coincides with the day count
(e - s + 1).toNat being 0. -/
def countWorkDays (s e : ℤ) : ℕ :=
  ((List.range (e - s + 1).toNat).filter (fun i : ℕ => !isWeekend (s + (i : ℤ)))).length

/-- getWeekStart (GanttChart.tsx lines 109-114 and identical copies): the
Sunday that starts the week containing d. -/
def getWeekStart (d : ℤ) : ℤ := d - dayOfWeek d

/-- getAllWeekStarts (GanttChart.tsx lines 116-126 and identical copies):
start one week before getWeekStart(min) and push week starts while the
cursor is at most max. The while loop pushes start + 7k for
k = 0 .. (max - start) / 7 when start is at most max, and nothing
otherwise. -/
def getAllWeekStarts (mn mx : ℤ) : List ℤ :=
  if mx < getWeekStart mn - 7 then []
  else (List.range (((mx - (getWeekStart mn - 7)) / 7).toNat + 1)).map
    (fun i : ℕ => getWeekStart mn - 7 + 7 * (i : ℤ))

/-- The work-day count of the date derivation (ErrorBoundary.tsx lines
341-353 and ProjectForm duration calculator): weeksNeeded =
estimatedHours / ((weeklyAllocation / 100) * standardWeekHours), then
workDaysNeeded = Math.ceil(weeksNeeded * 5). The standardWeekHours
argument is the already-defaulted value (pool.standardWeekHours || 40). -/
def workDaysNeeded (estimatedHours weeklyAllocation standardWeekHours : ℚ) : ℤ :=
  ⌈estimatedHours / (weeklyAllocation / 100 * standardWeekHours) * 5⌉

theorem nextWorkDay_not_weekend (d : ℤ) : isWeekend (nextWorkDay d) = false := by
  unfold nextWorkDay
  split_ifs with h1 h2 <;>
    simp only [isWeekend, dayOfWeek, Bool.or_eq_false_iff, beq_eq_false_iff_ne, ne_eq] at * <;>
    omega

theorem prevWorkDay_not_weekend (d : ℤ) : isWeekend (prevWorkDay d) = false := by
  unfold prevWorkDay
  split_ifs with h1 h2 <;>
    simp only [isWeekend, dayOfWeek, Bool.or_eq_false_iff, beq_eq_false_iff_ne, ne_eq] at * <;>
    omega

theorem prevWorkDay_nextWorkDay (d : ℤ) (h : isWeekend d = false) :
    prevWorkDay (nextWorkDay d) = d := by
  unfold nextWorkDay prevWorkDay
  split_ifs <;>
    simp only [isWeekend, dayOfWeek, Bool.or_eq_false_iff, beq_eq_false_iff_ne, ne_eq] at * <;>
    omega

theorem addWorkDaysN_comm (n : ℕ) (d : ℤ) :
    addWorkDaysN (nextWorkDay d) n = nextWorkDay (addWorkDaysN d n) := by
  induction n generalizing d with
  | zero => rfl
  | succ k ih =>
    show addWorkDaysN (nextWorkDay (nextWorkDay d)) k
        = nextWorkDay (addWorkDaysN (nextWorkDay d) k)
    exact ih (nextWorkDay d)

theorem addWorkDaysN_not_weekend (n : ℕ) (d : ℤ) (h : isWeekend d = false) :
    isWeekend (addWorkDaysN d n) = false := by
  induction n generalizing d with
  | zero => exact h
  | succ k ih => exact ih (nextWorkDay d) (nextWorkDay_not_weekend d)

theorem subtractWorkDaysN_not_weekend (n : ℕ) (d : ℤ) (h : isWeekend d = false) :
    isWeekend (subtractWorkDaysN d n) = false := by
  induction n generalizing d with
  | zero => exact h
  | succ k ih => exact ih (prevWorkDay d) (prevWorkDay_not_weekend d)

theorem subtract_add_workDays (n : ℕ) (d : ℤ) (h : isWeekend d = false) :
    subtractWorkDaysN (addWorkDaysN d n) n = d := by
  induction n generalizing d with
  | zero => rfl
  | succ k ih =>
    have h1 : addWorkDaysN d (k + 1) = nextWorkDay (addWorkDaysN d k) := by
      show addWorkDaysN (nextWorkDay d) k = _
      exact addWorkDaysN_comm k d
    calc subtractWorkDaysN (addWorkDaysN d (k + 1)) (k + 1)
        = subtractWorkDaysN (prevWorkDay (addWorkDaysN d (k + 1))) k := rfl
      _ = subtractWorkDaysN (prevWorkDay (nextWorkDay (addWorkDaysN d k))) k := by rw [h1]
      _ = subtractWorkDaysN (addWorkDaysN d k) k := by
            rw [prevWorkDay_nextWorkDay _ (addWorkDaysN_not_weekend k d h)]
      _ = d := ih d h

/-- C5 counterexample: day 2 is Saturday 1970-01-03; with estimatedHours 4,
weeklyAllocation 100 and standardWeekHours 40 a single work day is needed,
and the forward-then-backward walk lands on day 1 (the preceding Friday),
not back on the Saturday start date. -/
theorem derive_roundTrip_counterexample :
    isWeekend 2 = true
    ∧ workDaysNeeded 4 100 40 = 1
    ∧ subtractWorkDays (addWorkDays 2 (workDaysNeeded 4 100 40)) (workDaysNeeded 4 100 40) = 1
    ∧ (1 : ℤ) ≠ 2 := by
  have hw : workDaysNeeded 4 100 40 = 1 := by
    unfold workDaysNeeded
    norm_num [Int.ceil_eq_iff]
  refine ⟨by decide, hw, ?_, by decide⟩
  rw [hw]
  decide

/-- C5 amended: for a weekday start date and positive effort, allocation
and standard week hours, walking forward workDaysNeeded weekdays and then
backward the same count returns the original start date. (A weekend start
date is never re-reached: the backward walk stops on the preceding
weekday, as the counterexample shows.) -/
theorem derive_roundTrip_amended (d : ℤ) (eh wa swh : ℚ)
    (hd : isWeekend d = false) (_heh : 0 < eh) (_hwa : 0 < wa) (_hswh : 0 < swh) :
    subtractWorkDays (addWorkDays d (workDaysNeeded eh wa swh)) (workDaysNeeded eh wa swh) = d :=
  subtract_add_workDays (workDaysNeeded eh wa swh).toNat d hd

/-- Witness for the amended C5 theorem: Friday 1970-01-02 (day 1) with a
one-work-day derivation round-trips to itself. -/
theorem derive_roundTrip_amended_witness :
    subtractWorkDays (addWorkDays 1 (workDaysNeeded 4 100 40)) (workDaysNeeded 4 100 40) = 1 :=
  derive_roundTrip_amended 1 4 100 40 (by decide) (by norm_num) (by norm_num) (by norm_num)

/-- C9: countWorkDays on a one-day range is 1 on a weekday and 0 on a
weekend day, and countWorkDays is 0 whenever start exceeds end. -/
theorem countWorkDays_single_day_and_empty :
    (∀ d : ℤ, isWeekend d = false → countWorkDays d d = 1)
    ∧ (∀ d : ℤ, isWeekend d = true → countWorkDays d d = 0)
    ∧ (∀ s e : ℤ, e < s → countWorkDays s e = 0) := by
  have hr : List.range 1 = [0] := rfl
  refine ⟨?_, ?_, ?_⟩
  · intro d h
    have h1 : (d - d + 1).toNat = 1 := by omega
    rw [countWorkDays, h1, hr]
    simp [List.filter, h]
  · intro d h
    have h1 : (d - d + 1).toNat = 1 := by omega
    rw [countWorkDays, h1, hr]
    simp [List.filter, h]
  · intro s e h
    have h1 : (e - s + 1).toNat = 0 := by omega
    rw [countWorkDays, h1]
    rfl

/-- Witness for C9 at concrete days: day 1 is a Friday, day 2 a Saturday. -/
theorem countWorkDays_single_day_and_empty_witness :
    countWorkDays 1 1 = 1 ∧ countWorkDays 2 2 = 0 ∧ countWorkDays 5 4 = 0 :=
  ⟨countWorkDays_single_day_and_empty.1 1 (by decide),
   countWorkDays_single_day_and_empty.2.1 2 (by decide),
   countWorkDays_single_day_and_empty.2.2 5 4 (by decide)⟩

/-- C10: for any start date (weekend included) and any work-day count of at
least 1, both addWorkDays and subtractWorkDays land on a weekday. -/
theorem workDays_land_on_weekday (d w : ℤ) (hw : 1 ≤ w) :
    isWeekend (addWorkDays d w) = false ∧ isWeekend (subtractWorkDays d w) = false := by
  obtain ⟨k, hk⟩ : ∃ k : ℕ, w.toNat = k + 1 := ⟨w.toNat - 1, by omega⟩
  constructor
  · unfold addWorkDays
    rw [hk]
    exact addWorkDaysN_not_weekend k (nextWorkDay d) (nextWorkDay_not_weekend d)
  · unfold subtractWorkDays
    rw [hk]
    exact subtractWorkDaysN_not_weekend k (prevWorkDay d) (prevWorkDay_not_weekend d)

/-- Witness for C10 at a Saturday start (day 2) and one work day. -/
theorem workDays_land_on_weekday_witness :
    isWeekend (addWorkDays 2 1) = false ∧ isWeekend (subtractWorkDays 2 1) = false :=
  workDays_land_on_weekday 2 1 (by decide)

/-- C6 counterexample: min = day 13 (a Wednesday) and max = day 10 has
min > max, yet getAllWeekStarts returns the two week starts 3 and 10,
because the loop begins one week before getWeekStart(min) = 10 and day 3
is still at most max. -/
theorem getAllWeekStarts_degenerate_counterexample :
    (13 : ℤ) > 10 ∧ getAllWeekStarts 13 10 = [3, 10] := by
  refine ⟨by decide, ?_⟩
  decide

/-- C6 amended: getAllWeekStarts(min, max) is empty exactly when max is
strictly before getWeekStart(min) - 7; min > max alone does not make the
result empty. -/
theorem getAllWeekStarts_empty_iff (mn mx : ℤ) :
    getAllWeekStarts mn mx = [] ↔ mx < getWeekStart mn - 7 := by
  unfold getAllWeekStarts
  split_ifs with h
  · simp [h]
  · simp [h, List.map_eq_nil_iff, List.range_eq_nil]

/-- The pool of the C3 scenario: 40 weekly hours, 5 support, 5 meeting,
standardWeekHours unset. -/
def scenarioPool : Pool :=
  { name := "Pool A", weeklyHours := 40, standardWeekHours := none
    supportHours := some 5, meetingHours := some 5 }

/-- The two active Development projects of the C3 scenario, each at 60
percent weekly allocation. -/
def scenarioProjects : List WProject :=
  [ { status := some "Development", weeklyAllocation := some 60 }
  , { status := some "Development", weeklyAllocation := some 60 } ]

/-- C3: for the pool weeklyHours 40 / supportHours 5 / meetingHours 5 with
standardWeekHours unset (defaulting to 40) and two active non-complete
Development projects each at weeklyAllocation 60, the utilization
computation returns totalAllocated 48, availableHours 30, isOverAllocated
true and utilization percent 160.0. -/
theorem scenario_two_dev_projects_overallocated :
    calculatePoolUtilizationFromProjects scenarioProjects scenarioPool =
      { totalAllocated := 48, poolHours := 40, availableHours := 30
        reservedHours := 10, utilization := JSNum.num 160, isOverAllocated := true } := by
  have hD : ¬ (lowerStr "Development" = "complete") := by decide
  simp only [calculatePoolUtilizationFromProjects, scenarioProjects, scenarioPool,
    wTotalAllocated, wAllocationPercent, reservedHours, orD,
    List.foldl, round10, jsDiv, jsMul100, jsRound10, WUtil.mk.injEq]
  norm_num [round_eq, hD]

/-- A row of the bulk-update table: the project name, the allocation about
to be saved, and the row's active checkbox. -/
structure ConcurrentProject where
  name : String
  newAllocation : ℤ
  isActive : Bool
deriving DecidableEq

/-- handleDistributeEvenly (BulkUpdateForm.tsx lines 209-223): with N the
number of active rows, base = Math.floor(100 / N) and rem = 100 % N; the
map assigns base + 1 to an active row whose index in the FULL row list
(not its index among the active rows) is below rem, base to every other
active row, and leaves inactive rows untouched; no-op when N = 0. -/
def handleDistributeEvenly (cps : List ConcurrentProject) : List ConcurrentProject :=
  let n := (cps.filter (fun cp => cp.isActive)).length
  if n = 0 then cps
  else
    let evenAllocation := 100 / n
    let rem := 100 % n
    cps.mapIdx (fun i cp =>
      if cp.isActive then
        { cp with newAllocation := if i < rem then (evenAllocation : ℤ) + 1 else (evenAllocation : ℤ) }
      else cp)

/-- The percentage total the bulk-update view reports
(calculateTotalAllocation, BulkUpdateForm.tsx lines 149-153): the sum over
active rows only. -/
def calculateTotalAllocation (cps : List ConcurrentProject) : ℤ :=
  (cps.filter (fun cp => cp.isActive)).foldl (fun s cp => s + cp.newAllocation) 0

/-- A bulk-update row list with the inactive row first: three active rows
follow one inactive row. -/
def distributeFailingInput : List ConcurrentProject :=
  [ { name := "P0", newAllocation := 40, isActive := false }
  , { name := "P1", newAllocation := 10, isActive := true }
  , { name := "P2", newAllocation := 20, isActive := true }
  , { name := "P3", newAllocation := 30, isActive := true } ]

/-- C4 failing input evaluated: with three active rows preceded by one
inactive row, rem = 100 % 3 = 1 falls on the inactive index 0, every
active row receives floor(100 / 3) = 33, and the distributed total is 99,
not 100. -/
theorem distributeEvenly_sum_is_99 :
    (distributeFailingInput.filter (fun cp => cp.isActive)).length = 3
    ∧ ((handleDistributeEvenly distributeFailingInput).filter
        (fun cp => cp.isActive)).map (fun cp => cp.newAllocation) = [33, 33, 33]
    ∧ calculateTotalAllocation (handleDistributeEvenly distributeFailingInput) = 99 := by
  decide

/-- The fields of a project as the GanttChart utilization reads them. -/
structure GProject where
  pool : String
  status : Option String
  weeklyAllocation : Option ℚ
  startDate : ℤ
  targetDate : ℤ
deriving DecidableEq

/-- getCurrentWeekConcurrentProjects (GanttChart.tsx lines 128-135): the
projects of the pool that are not complete and whose date range meets the
week. -/
def getCurrentWeekConcurrentProjects (projects : List GProject) (poolName : String)
    (weekStart weekEnd : ℤ) : List GProject :=
  projects.filter (fun p =>
    p.pool == poolName && isActiveStatus p.status
      && decide (p.startDate ≤ weekEnd) && decide (p.targetDate ≥ weekStart))

/-- The record returned by the GanttChart calculatePoolUtilization. -/
structure GUtil where
  totalAllocated : ℚ
  poolHours : ℚ
  utilization : JSNum
  isOverAllocated : Bool
deriving DecidableEq

/-- calculatePoolUtilization (GanttChart.tsx lines 137-156): a missing pool
short-circuits to the sentinel record; otherwise the concurrent projects
are summed with the hardcoded 40-hour conversion and utilization divides
by the pool's weeklyHours. -/
def calculatePoolUtilization (projects : List GProject) (pools : List Pool)
    (poolName : String) (weekStart weekEnd : ℤ) : GUtil :=
  match pools.find? (fun p => p.name == poolName) with
  | none => { totalAllocated := 0, poolHours := 0, utilization := JSNum.num 0, isOverAllocated := false }
  | some pool =>
    let concurrent := getCurrentWeekConcurrentProjects projects poolName weekStart weekEnd
    let totalAllocated := concurrent.foldl (fun sum proj =>
      sum + (wAllocationPercent { status := proj.status, weeklyAllocation := proj.weeklyAllocation } / 100) * 40) 0
    { totalAllocated := round10 totalAllocated
      poolHours := pool.weeklyHours
      utilization := jsRound10 (jsMul100 (jsDiv totalAllocated pool.weeklyHours))
      isOverAllocated := decide (totalAllocated > pool.weeklyHours) }

/-- C8: when the requested pool name occurs nowhere in the pool list, the
utilization computation returns the sentinel record with totalAllocated 0,
poolHours 0, utilization 0 and isOverAllocated false (and, being a total
function, it cannot throw). -/
theorem poolUtilization_missing_pool (projects : List GProject) (pools : List Pool)
    (poolName : String) (weekStart weekEnd : ℤ)
    (h : ∀ p ∈ pools, p.name ≠ poolName) :
    calculatePoolUtilization projects pools poolName weekStart weekEnd
      = { totalAllocated := 0, poolHours := 0, utilization := JSNum.num 0
          isOverAllocated := false } := by
  have hf : pools.find? (fun p => p.name == poolName) = none := by
    rw [List.find?_eq_none]
    intro p hp
    simp [h p hp]
  simp [calculatePoolUtilization, hf]

/-- Witness for C8: an absent pool name over empty data. -/
theorem poolUtilization_missing_pool_witness :
    calculatePoolUtilization [] [] "Ghost" 0 6
      = { totalAllocated := 0, poolHours := 0, utilization := JSNum.num 0
          isOverAllocated := false } :=
  poolUtilization_missing_pool [] [] "Ghost" 0 6 (by simp)

/-- The record returned by the BulkUpdateForm getPoolUtilization: the
sentinel for a missing pool carries only totalAllocated, poolHours and
utilization, so availableHours and reservedHours are optional. -/
structure BUtil where
  totalAllocated : ℚ
  poolHours : ℚ
  availableHours : Option ℚ
  reservedHours : Option ℚ
  utilization : JSNum
deriving DecidableEq

/-- The sentinel returned for an empty selection or a missing pool. -/
def bulkSentinel : BUtil :=
  { totalAllocated := 0, poolHours := 0, availableHours := none
    reservedHours := none, utilization := JSNum.num 0 }

/-- The PoolUtilizationCache contents: key, stored record, and the
Date.now() timestamp recorded by set. -/
abbrev UtilCache := List (String × BUtil × ℤ)

/-- PoolUtilizationCache.get (BulkUpdateForm.tsx lines 9-15): a hit only
when the entry exists and is younger than the 1-minute maxAge. -/
def bulkCacheGet (cache : UtilCache) (key : String) (now : ℤ) : Option BUtil :=
  match List.lookup key cache with
  | some (data, ts) => if now - ts < 60000 then some data else none
  | none => none

/-- PoolUtilizationCache.set (BulkUpdateForm.tsx lines 17-19): store the
record under the key with the current timestamp, replacing any previous
entry for the key. -/
def bulkCacheSet (cache : UtilCache) (key : String) (data : BUtil) (now : ℤ) : UtilCache :=
  (key, data, now) :: cache.filter (fun kv => kv.1 != key)

/-- The cache key of getPoolUtilization (BulkUpdateForm.tsx line 159): the
selected pool name joined with each row's name:newAllocation. No pool
field (weeklyHours, supportHours, meetingHours, standardWeekHours) is part
of the key. -/
def buildCacheKey (selectedPool : String) (cps : List ConcurrentProject) : String :=
  selectedPool ++ "-"
    ++ String.intercalate "," (cps.map (fun cp => cp.name ++ ":" ++ toString cp.newAllocation))

/-- The computation getPoolUtilization performs once the pool is found
(BulkUpdateForm.tsx lines 170-186). -/
def bulkComputeUtilization (pool : Pool) (cps : List ConcurrentProject) : BUtil :=
  let totalAllocated := calculateTotalAllocation cps
  let standardWeekHours := orD pool.standardWeekHours 40
  let utilization := (totalAllocated : ℚ) / 100 * standardWeekHours
  let reserved := orD pool.supportHours 0 + orD pool.meetingHours 0
  let available := pool.weeklyHours - reserved
  { totalAllocated := round10 utilization
    poolHours := pool.weeklyHours
    availableHours := some (round10 available)
    reservedHours := some (round10 reserved)
    utilization := jsRound10 (jsMul100 (jsDiv utilization available)) }

/-- getPoolUtilization with the cache checks stripped: what the function
returns on the current inputs when no entry hits. -/
def getPoolUtilizationUncached (pools : List Pool) (selectedPool : String)
    (cps : List ConcurrentProject) : BUtil :=
  if selectedPool = "" then bulkSentinel
  else
    match pools.find? (fun p => p.name == selectedPool) with
    | none => bulkSentinel
    | some pool => bulkComputeUtilization pool cps

/-- getPoolUtilization (BulkUpdateForm.tsx lines 155-192): return the
sentinel for an empty selection, then consult the cache under the
name-and-allocations key, and only on a miss find the pool, compute, and
store the result. -/
def getPoolUtilization (cache : UtilCache) (now : ℤ) (pools : List Pool)
    (selectedPool : String) (cps : List ConcurrentProject) : BUtil × UtilCache :=
  if selectedPool = "" then (bulkSentinel, cache)
  else
    match bulkCacheGet cache (buildCacheKey selectedPool cps) now with
    | some cached => (cached, cache)
    | none =>
      match pools.find? (fun p => p.name == selectedPool) with
      | none => (bulkSentinel, cache)
      | some pool =>
        (bulkComputeUtilization pool cps,
         bulkCacheSet cache (buildCacheKey selectedPool cps) (bulkComputeUtilization pool cps) now)

/-- Pool P before the edit: 40 weekly hours, nothing reserved. -/
def cachePools1 : List Pool :=
  [{ name := "P", weeklyHours := 40, standardWeekHours := none
     supportHours := none, meetingHours := none }]

/-- Pool P after the edit: supportHours raised to 20. -/
def cachePools2 : List Pool :=
  [{ name := "P", weeklyHours := 40, standardWeekHours := none
     supportHours := some 20, meetingHours := none }]

/-- The unchanged bulk-update rows: one active project at 50 percent. -/
def cacheCps : List ConcurrentProject :=
  [{ name := "A", newAllocation := 50, isActive := true }]

/-- C7 failing run evaluated: populate the cache against pool P, edit P's
supportHours to 20, and call again one second later (inside the 1-minute
maxAge) with the same selection and rows. The cached call reports 50
percent utilization while the uncached computation on the current pool
data reports 100 percent, so the cached result differs from the uncached
path. -/
theorem stale_cache_after_pool_change :
    ((getPoolUtilization ((getPoolUtilization [] 0 cachePools1 "P" cacheCps).2)
        1000 cachePools2 "P" cacheCps).1).utilization = JSNum.num 50
    ∧ (getPoolUtilizationUncached cachePools2 "P" cacheCps).utilization = JSNum.num 100
    ∧ (getPoolUtilization ((getPoolUtilization [] 0 cachePools1 "P" cacheCps).2)
        1000 cachePools2 "P" cacheCps).1
      ≠ getPoolUtilizationUncached cachePools2 "P" cacheCps := by
  have h1 : (getPoolUtilization ((getPoolUtilization [] 0 cachePools1 "P" cacheCps).2)
      1000 cachePools2 "P" cacheCps).1
      = bulkComputeUtilization
          { name := "P", weeklyHours := 40, standardWeekHours := none
            supportHours := none, meetingHours := none } cacheCps := rfl
  have h2 : getPoolUtilizationUncached cachePools2 "P" cacheCps
      = bulkComputeUtilization
          { name := "P", weeklyHours := 40, standardWeekHours := none
            supportHours := some 20, meetingHours := none } cacheCps := rfl
  have hu1 : (bulkComputeUtilization
      { name := "P", weeklyHours := 40, standardWeekHours := none
        supportHours := none, meetingHours := none } cacheCps).utilization = JSNum.num 50 := by
    simp only [bulkComputeUtilization, calculateTotalAllocation, cacheCps, orD,
      List.filter, List.foldl, jsDiv, jsMul100, jsRound10, round10]
    norm_num [round_eq]
  have hu2 : (bulkComputeUtilization
      { name := "P", weeklyHours := 40, standardWeekHours := none
        supportHours := some 20, meetingHours := none } cacheCps).utilization = JSNum.num 100 := by
    simp only [bulkComputeUtilization, calculateTotalAllocation, cacheCps, orD,
      List.filter, List.foldl, jsDiv, jsMul100, jsRound10, round10]
    norm_num [round_eq]
  refine ⟨by rw [h1]; exact hu1, by rw [h2]; exact hu2, ?_⟩
  intro hEq
  have hcontra := congrArg BUtil.utilization hEq
  rw [h1, h2, hu1, hu2] at hcontra
  simp only [JSNum.num.injEq] at hcontra
  norm_num at hcontra
